import Mathlib

/-!
Verification development for the tnm084-project repository, a raylib-based
fractal tree demo. The single source file `sources/game.c` drives a render
loop: it initializes a window and camera, polls keyboard input to pan the
camera and adjust the branch angle of a recursively drawn fractal tree, and
each frame renders the tree into an off-screen framebuffer which is then
composited to the screen through a bloom post-processing shader.

The embedding below translates the C code into Lean: floats become rationals,
the game state struct becomes a structure, keyboard state and frame time are
passed explicitly, and the raylib drawing calls are embedded as commands
appended to a trace.
-/

namespace Game

/-- Two-component vector, embedding raylib Vector2 (float x, y). -/
structure Vector2 where
  x : ℚ
  y : ℚ
  deriving DecidableEq, Repr

/-- Component-wise vector addition, embedding raymath Vector2Add. -/
def Vector2Add (v1 v2 : Vector2) : Vector2 :=
  { x := v1.x + v2.x, y := v1.y + v2.y }

/-- Scalar multiplication, embedding raymath Vector2Scale. -/
def Vector2Scale (v : Vector2) (scale : ℚ) : Vector2 :=
  { x := v.x * scale, y := v.y * scale }

/-- RGBA color, embedding raylib Color (unsigned char r, g, b, a). -/
structure Color where
  r : ℕ
  g : ℕ
  b : ℕ
  a : ℕ
  deriving DecidableEq, Repr

/-- Raylib SKYBLUE constant: (102, 191, 255, 255). -/
def SKYBLUE : Color := ⟨102, 191, 255, 255⟩

/-- Raylib WHITE constant: (255, 255, 255, 255). -/
def WHITE : Color := ⟨255, 255, 255, 255⟩

/-- Embedding of raylib Camera2D restricted to the fields game.c touches:
the pan offset and the zoom factor. -/
structure Camera2D where
  offset : Vector2
  zoom : ℚ
  deriving DecidableEq, Repr

/-- Embedding of the s_game aggregate, with the fields game.c reads and
writes: window size, window title, the 2D camera, the fractal tree branch
angle in degrees, and the starting branch length in pixels. -/
structure s_game where
  window_size : Vector2
  title : String
  camera : Camera2D
  fractal_tree_angle : ℚ
  fractal_tree_start_length : ℚ
  deriving DecidableEq, Repr

/-- Keyboard state for the keys game.c polls with IsKeyDown: D and A pan
horizontally, S and W pan vertically, UP and DOWN adjust the branch angle. -/
structure KeyState where
  keyD : Bool
  keyA : Bool
  keyS : Bool
  keyW : Bool
  keyUp : Bool
  keyDown : Bool
  deriving DecidableEq, Repr

/-- The camera movement accumulator built at the top of InputGame: starts
at (0, 0); KEY_D decrements x, else KEY_A increments x; KEY_S decrements y,
else KEY_W increments y. -/
def moveVectorOf (keys : KeyState) : Vector2 :=
  { x := if keys.keyD then -1 else if keys.keyA then 1 else 0
  , y := if keys.keyS then -1 else if keys.keyW then 1 else 0 }

/-- Embedding of InputGame from game.c. The keyboard state and the elapsed
frame time (GetFrameTime) are passed explicitly. The source computes
Vector2Scale(moveVector, cameraSpeed * GetFrameTime()) but discards the
returned value, so the unscaled moveVector is what is added to the camera
offset; the discarded computation is kept here as scaledDiscarded. The
branch angle then changes by plus or minus 10 degrees per second while
KEY_UP or KEY_DOWN is held, with KEY_UP checked first. -/
def InputGame (keys : KeyState) (frameTime : ℚ) (game : s_game) : s_game :=
  let moveVector := moveVectorOf keys
  let cameraSpeed : ℚ := 10
  let scaledDiscarded := Vector2Scale moveVector (cameraSpeed * frameTime)
  let newOffset := Vector2Add game.camera.offset moveVector
  let newAngle :=
    if keys.keyUp then game.fractal_tree_angle + 10 * frameTime
    else if keys.keyDown then game.fractal_tree_angle + (-10) * frameTime
    else game.fractal_tree_angle
  let _ := scaledDiscarded
  { game with
      camera := { game.camera with offset := newOffset }
      fractal_tree_angle := newAngle }

/-- Modelled from the spec: the shrink factor of the Recursive Tree
Generator, whose implementation (tree.h / tree.c) is not in the sources at
hand. The spec calls it a fixed implementation constant in the range
0.7 to 0.8 and its test scenario uses 0.75. -/
def treeShrinkFactor : ℚ := 3 / 4

/-- A drawn branch segment: its length (thickness and endpoints derive from
it) and its orientation in degrees relative to the parent axis. -/
structure Segment where
  length : ℚ
  orientation : ℚ
  deriving DecidableEq, Repr

/-- Modelled from the spec: RecursiveTreeDraw(currentLength, baseLength,
angleDegrees) from tree.h, whose implementation is not in the sources at
hand. Per the spec: if currentLength is below the termination threshold,
return immediately drawing nothing; otherwise draw one segment, translate
to its far end, and recurse twice — once rotated by plus angleDegrees and
once by minus angleDegrees — with the length scaled down by the fixed
shrink factor. The mutable transform stack is abstracted away: each drawn
segment is recorded with its length and local orientation. Recursion depth
is bounded by an explicit fuel argument; none signals fuel exhaustion, so
termination of the C recursion corresponds to some fuel returning a value. -/
def RecursiveTreeDraw (threshold : ℚ) (fuel : ℕ) (currentLength baseLength angleDegrees : ℚ) :
    Option (List Segment) :=
  if currentLength < threshold then some []
  else
    match fuel with
    | 0 => none
    | n + 1 => do
      let leftBranch ← RecursiveTreeDraw threshold n
        (currentLength * treeShrinkFactor) baseLength angleDegrees
      let rightBranch ← RecursiveTreeDraw threshold n
        (currentLength * treeShrinkFactor) baseLength angleDegrees
      pure (⟨currentLength, 0⟩ ::
        (leftBranch.map (fun seg => ⟨seg.length, seg.orientation + angleDegrees⟩) ++
         rightBranch.map (fun seg => ⟨seg.length, seg.orientation - angleDegrees⟩)))

/-- One raylib call issued by game.c, recorded as a trace command. The
loadShader command records the arguments of the C call
LoadShader(0, TextFormat(ASSETS_PATH postprocessing.glsl, 330)): the
vertex shader argument (none embeds the NULL default), the format string of
the fragment shader path, and the integer formatted into it. -/
inductive Cmd where
  | initWindow (width height : ℚ) (title : String)
  | setTargetFPS (fps : ℕ)
  | loadShader (vertexShader : Option String) (fragmentPathFormat : String) (glslVersion : ℕ)
  | loadRenderTexture (width height : ℚ)
  | beginTextureMode
  | beginMode2D (camera : Camera2D)
  | clearBackground (color : Color)
  | rlPushMatrix
  | rlTranslatef (x y z : ℚ)
  | recursiveTreeDraw (currentLength baseLength angleDegrees : ℚ)
  | rlPopMatrix
  | endMode2D
  | endTextureMode
  | beginDrawing
  | beginShaderMode
  | drawTextureRec (srcX srcY srcWidth srcHeight : ℚ) (position : Vector2) (tint : Color)
  | endShaderMode
  | endDrawing
  | closeWindow
  deriving DecidableEq, Repr

/-- Modelled from the spec: the ASSETS_PATH build-time macro, a fixed asset
directory path prefix supplied by the build system (not in the sources at
hand). Its exact text does not matter to any claim, only that it is fixed. -/
def ASSETS_PATH : String := "assets/"

/-- The fragment shader path format string of the LoadShader call in
RunGame: the ASSETS_PATH macro concatenated with the adjacent string
literal postprocessing.glsl. -/
def ppShaderPathFormat : String := ASSETS_PATH ++ "postprocessing.glsl"

/-- The body of the render loop in RunGame, one iteration after InputGame
has run: the sequence of raylib calls issued for one frame, in source
order. The DrawTextureRec source rectangle is (0, 0, +textureWidth,
-textureHeight) where the framebuffer texture has the window size, so the
height is negated to flip the vertical axis. -/
def frameBody (game : s_game) : List Cmd :=
  [ Cmd.beginTextureMode
  , Cmd.beginMode2D game.camera
  , Cmd.clearBackground SKYBLUE
  , Cmd.rlPushMatrix
  , Cmd.rlTranslatef game.window_size.x (game.window_size.y * 2) 0
  , Cmd.recursiveTreeDraw game.fractal_tree_start_length
      game.fractal_tree_start_length game.fractal_tree_angle
  , Cmd.rlPopMatrix
  , Cmd.endMode2D
  , Cmd.endTextureMode
  , Cmd.beginDrawing
  , Cmd.clearBackground WHITE
  , Cmd.beginShaderMode
  , Cmd.drawTextureRec 0 0 game.window_size.x (-game.window_size.y) ⟨0, 0⟩ WHITE
  , Cmd.endShaderMode
  , Cmd.endDrawing ]

/-- The while loop of RunGame, driven by a finite list of per-frame inputs
(keyboard state and elapsed frame time); WindowShouldClose returns true
once the list is exhausted. Each iteration runs InputGame and then emits
the frame drawing commands. Returns the full loop trace and the final
game state. -/
def runLoop (game : s_game) : List (KeyState × ℚ) → List Cmd × s_game
  | [] => ([], game)
  | (keys, frameTime) :: rest =>
    let game1 := InputGame keys frameTime game
    let (trace, gameEnd) := runLoop game1 rest
    (frameBody game1 ++ trace, gameEnd)

/-- Embedding of RunGame from game.c: load the bloom shader and the
off-screen render texture (sized to the window) once before the loop, run
the loop until the close signal, then call CloseWindow, which tears down
the window and its GL context — releasing the context-owned GPU resources,
the render texture and the shader — before RunGame returns. -/
def RunGame (game : s_game) (inputs : List (KeyState × ℚ)) : List Cmd × s_game :=
  let setup :=
    [ Cmd.loadShader none ppShaderPathFormat 330
    , Cmd.loadRenderTexture game.window_size.x game.window_size.y ]
  let (loopTrace, gameEnd) := runLoop game inputs
  (setup ++ loopTrace ++ [Cmd.closeWindow], gameEnd)

/-- The state mutations StartGame performs before entering RunGame: camera
zoom set to 0.5, branch angle to 30 degrees, starting branch length to 350
pixels. -/
def setupGame (game : s_game) : s_game :=
  { game with
      camera := { game.camera with zoom := 1 / 2 }
      fractal_tree_angle := 30
      fractal_tree_start_length := 350 }

/-- Embedding of StartGame from game.c: create the window at the configured
size and title, apply the setup mutations, cap the frame rate at 60, then
enter the render loop via RunGame. -/
def StartGame (game : s_game) (inputs : List (KeyState × ℚ)) : List Cmd × s_game :=
  let game1 := setupGame game
  let (runTrace, gameEnd) := RunGame game1 inputs
  ([ Cmd.initWindow game.window_size.x game.window_size.y game.title
   , Cmd.setTargetFPS 60 ] ++ runTrace, gameEnd)

/-- Embedding of EndGame from game.c: the function body is empty, so the
game state is returned unchanged and no commands are emitted. -/
def EndGame (game : s_game) : List Cmd × s_game :=
  ([], game)

/-- Decidable test for the loadShader trace command. -/
def Cmd.isLoadShader : Cmd → Bool
  | Cmd.loadShader _ _ _ => true
  | _ => false

/-- Decidable test for the loadRenderTexture trace command. -/
def Cmd.isLoadRenderTexture : Cmd → Bool
  | Cmd.loadRenderTexture _ _ => true
  | _ => false

/-- Decidable test for the closeWindow trace command. -/
def Cmd.isCloseWindow : Cmd → Bool
  | Cmd.closeWindow => true
  | _ => false

/-- A concrete game state used to instantiate universally quantified
theorems at a specific input. -/
def sampleGame : s_game :=
  { window_size := ⟨800, 600⟩
  , title := "tnm084"
  , camera := { offset := ⟨0, 0⟩, zoom := 1 }
  , fractal_tree_angle := 30
  , fractal_tree_start_length := 350 }

/-- Keyboard state with every polled key held. -/
def allKeysHeld : KeyState := ⟨true, true, true, true, true, true⟩

/-- Keyboard state with only KEY_UP held. -/
def upHeld : KeyState := ⟨false, false, false, false, true, false⟩

/-- C2: for every InputGame call and every frame time at least zero, the
delta added to the camera pan offset is the unscaled accumulator, whose
components are each exactly minus one, zero, or plus one; the scaled vector
computed from the camera speed and the frame time has no effect, so the
offset actually applied does not depend on the frame time. -/
theorem inputGame_offset_unscaled (keys : KeyState) (frameTime : ℚ) (game : s_game)
    (h : 0 ≤ frameTime) :
    (InputGame keys frameTime game).camera.offset =
      Vector2Add game.camera.offset (moveVectorOf keys) ∧
    ((moveVectorOf keys).x = -1 ∨ (moveVectorOf keys).x = 0 ∨ (moveVectorOf keys).x = 1) ∧
    ((moveVectorOf keys).y = -1 ∨ (moveVectorOf keys).y = 0 ∨ (moveVectorOf keys).y = 1) ∧
    (InputGame keys frameTime game).camera.offset =
      (InputGame keys 0 game).camera.offset := by
  refine ⟨rfl, ?_, ?_, rfl⟩
  · unfold moveVectorOf
    rcases keys.keyD <;> rcases keys.keyA <;> simp
  · unfold moveVectorOf
    rcases keys.keyS <;> rcases keys.keyW <;> simp

/-- Witness for inputGame_offset_unscaled at a concrete input. -/
theorem inputGame_offset_unscaled_witness :
    (InputGame allKeysHeld 2 sampleGame).camera.offset =
      Vector2Add sampleGame.camera.offset (moveVectorOf allKeysHeld) ∧
    ((moveVectorOf allKeysHeld).x = -1 ∨ (moveVectorOf allKeysHeld).x = 0 ∨
      (moveVectorOf allKeysHeld).x = 1) ∧
    ((moveVectorOf allKeysHeld).y = -1 ∨ (moveVectorOf allKeysHeld).y = 0 ∨
      (moveVectorOf allKeysHeld).y = 1) ∧
    (InputGame allKeysHeld 2 sampleGame).camera.offset =
      (InputGame allKeysHeld 0 sampleGame).camera.offset :=
  inputGame_offset_unscaled allKeysHeld 2 sampleGame (by norm_num)

/-- C3: in every InputGame call the per-axis key checks are first-match
exclusive: whenever KEY_D (right) is held the horizontal offset delta is
exactly minus one regardless of KEY_A, KEY_A (left) alone gives plus one,
and neither gives zero — the effects never add; symmetrically KEY_S (down)
held gives a vertical delta of exactly minus one regardless of KEY_W,
KEY_W (up) alone gives plus one, and neither gives zero. -/
theorem inputGame_key_priority (keys : KeyState) (frameTime : ℚ) (game : s_game) :
    (keys.keyD = true →
      (InputGame keys frameTime game).camera.offset.x = game.camera.offset.x - 1) ∧
    (keys.keyD = false → keys.keyA = true →
      (InputGame keys frameTime game).camera.offset.x = game.camera.offset.x + 1) ∧
    (keys.keyD = false → keys.keyA = false →
      (InputGame keys frameTime game).camera.offset.x = game.camera.offset.x) ∧
    (keys.keyS = true →
      (InputGame keys frameTime game).camera.offset.y = game.camera.offset.y - 1) ∧
    (keys.keyS = false → keys.keyW = true →
      (InputGame keys frameTime game).camera.offset.y = game.camera.offset.y + 1) ∧
    (keys.keyS = false → keys.keyW = false →
      (InputGame keys frameTime game).camera.offset.y = game.camera.offset.y) := by
  unfold InputGame moveVectorOf Vector2Add
  refine ⟨?_, ?_, ?_, ?_, ?_, ?_⟩ <;> intros h1 <;> try intros h2
  all_goals simp_all
  all_goals ring

/-- Witness for inputGame_key_priority: with every key held, the right and
down branches win, so both offset components decrease by exactly one. -/
theorem inputGame_key_priority_witness :
    (InputGame allKeysHeld 1 sampleGame).camera.offset.x =
      sampleGame.camera.offset.x - 1 ∧
    (InputGame allKeysHeld 1 sampleGame).camera.offset.y =
      sampleGame.camera.offset.y - 1 :=
  ⟨(inputGame_key_priority allKeysHeld 1 sampleGame).1 rfl,
   (inputGame_key_priority allKeysHeld 1 sampleGame).2.2.2.1 rfl⟩

/-- C4: for every InputGame call with frame time at least zero, the branch
angle increases by exactly ten degrees per second times the frame time
while KEY_UP is held (KEY_UP wins when both angle keys are held), decreases
by exactly the same amount while only KEY_DOWN is held, and is unchanged
when neither is held; the equalities are exact, so no clamping is applied. -/
theorem inputGame_angle_rate (keys : KeyState) (frameTime : ℚ) (game : s_game)
    (h : 0 ≤ frameTime) :
    (keys.keyUp = true →
      (InputGame keys frameTime game).fractal_tree_angle =
        game.fractal_tree_angle + 10 * frameTime) ∧
    (keys.keyUp = false → keys.keyDown = true →
      (InputGame keys frameTime game).fractal_tree_angle =
        game.fractal_tree_angle - 10 * frameTime) ∧
    (keys.keyUp = false → keys.keyDown = false →
      (InputGame keys frameTime game).fractal_tree_angle = game.fractal_tree_angle) := by
  unfold InputGame
  refine ⟨?_, ?_, ?_⟩ <;> intros h1 <;> try intros h2
  all_goals simp_all
  ring

/-- Witness for inputGame_angle_rate: holding KEY_UP for a frame of three
seconds adds exactly thirty degrees. -/
theorem inputGame_angle_rate_witness :
    (InputGame upHeld 3 sampleGame).fractal_tree_angle =
      sampleGame.fractal_tree_angle + 10 * 3 :=
  (inputGame_angle_rate upHeld 3 sampleGame (by norm_num)).1 rfl

/-- Folding InputGame with only KEY_UP held adds ten times the total
elapsed time to the branch angle and leaves the camera offset and the
starting branch length unchanged. -/
theorem foldl_inputGame_upHeld (dts : List ℚ) (game : s_game) :
    (dts.foldl (fun g dt => InputGame upHeld dt g) game).fractal_tree_angle =
      game.fractal_tree_angle + 10 * dts.sum ∧
    (dts.foldl (fun g dt => InputGame upHeld dt g) game).camera.offset =
      game.camera.offset ∧
    (dts.foldl (fun g dt => InputGame upHeld dt g) game).fractal_tree_start_length =
      game.fractal_tree_start_length := by
  induction dts generalizing game with
  | nil => simp
  | cons dt rest ih =>
    have h := ih (InputGame upHeld dt game)
    refine ⟨?_, ?_, ?_⟩ <;>
      simp only [List.foldl_cons, List.sum_cons, h.1, h.2.1, h.2.2] <;>
      simp [InputGame, moveVectorOf, Vector2Add, upHeld] <;> ring

/-- C5: starting from angle thirty degrees, starting length 350 and camera
offset zero, any sequence of InputGame calls in which only KEY_UP is held
and whose frame times sum to half a second ends with branch angle exactly
35, camera offset still zero, and starting length still 350. -/
theorem inputGame_up_half_second (game : s_game) (dts : List ℚ)
    (hAngle : game.fractal_tree_angle = 30)
    (hLen : game.fractal_tree_start_length = 350)
    (hOffset : game.camera.offset = ⟨0, 0⟩)
    (hSum : dts.sum = 1 / 2) :
    (dts.foldl (fun g dt => InputGame upHeld dt g) game).fractal_tree_angle = 35 ∧
    (dts.foldl (fun g dt => InputGame upHeld dt g) game).camera.offset = ⟨0, 0⟩ ∧
    (dts.foldl (fun g dt => InputGame upHeld dt g) game).fractal_tree_start_length = 350 := by
  have h := foldl_inputGame_upHeld dts game
  refine ⟨?_, ?_, ?_⟩
  · rw [h.1, hAngle, hSum]; norm_num
  · rw [h.2.1, hOffset]
  · rw [h.2.2, hLen]

/-- Witness for inputGame_up_half_second: two frames of a quarter second
each, starting from the sample state. -/
theorem inputGame_up_half_second_witness :
    (([1 / 4, 1 / 4] : List ℚ).foldl
        (fun g dt => InputGame upHeld dt g) sampleGame).fractal_tree_angle = 35 ∧
    (([1 / 4, 1 / 4] : List ℚ).foldl
        (fun g dt => InputGame upHeld dt g) sampleGame).camera.offset = ⟨0, 0⟩ ∧
    (([1 / 4, 1 / 4] : List ℚ).foldl
        (fun g dt => InputGame upHeld dt g) sampleGame).fractal_tree_start_length = 350 :=
  inputGame_up_half_second sampleGame [1 / 4, 1 / 4] rfl rfl rfl (by norm_num)

/-- Sufficient fuel for the tree recursion: once the current length scaled
by the shrink factor to the power of the fuel drops below the threshold,
the recursion completes and returns a value. -/
theorem recursiveTreeDraw_isSome_of_fuel (threshold : ℚ) :
    ∀ (fuel : ℕ) (len base angle : ℚ),
      len * treeShrinkFactor ^ fuel < threshold →
      ∃ segs, RecursiveTreeDraw threshold fuel len base angle = some segs := by
  intro fuel
  induction fuel with
  | zero =>
    intro len base angle hlt
    rw [pow_zero, mul_one] at hlt
    exact ⟨[], by rw [RecursiveTreeDraw.eq_def, if_pos hlt]⟩
  | succ n ih =>
    intro len base angle hlt
    by_cases hbase : len < threshold
    · exact ⟨[], by rw [RecursiveTreeDraw.eq_def, if_pos hbase]⟩
    · have hrec : len * treeShrinkFactor * treeShrinkFactor ^ n < threshold := by
        calc len * treeShrinkFactor * treeShrinkFactor ^ n
            = len * treeShrinkFactor ^ (n + 1) := by ring
          _ < threshold := hlt
      obtain ⟨segsL, hL⟩ := ih (len * treeShrinkFactor) base angle hrec
      refine ⟨⟨len, 0⟩ ::
        (segsL.map (fun seg => ⟨seg.length, seg.orientation + angle⟩) ++
         segsL.map (fun seg => ⟨seg.length, seg.orientation - angle⟩)), ?_⟩
      rw [RecursiveTreeDraw.eq_def, if_neg hbase]
      simp only []
      rw [hL]
      rfl

/-- C1: for every termination threshold above zero and every starting
length above the threshold, the Recursive Tree Generator terminates within
a bounded number of recursion levels — some finite fuel suffices for the
recursion to return a value, for any angle — and whenever the current
length is below the threshold it returns immediately, drawing nothing. -/
theorem recursiveTreeDraw_terminates (threshold startLen angle : ℚ)
    (hT : 0 < threshold) (hL : threshold < startLen) :
    (∃ fuel segs, RecursiveTreeDraw threshold fuel startLen startLen angle = some segs) ∧
    (∀ (fuel : ℕ) (len base : ℚ), len < threshold →
      RecursiveTreeDraw threshold fuel len base angle = some []) := by
  constructor
  · have hLpos : 0 < startLen := hT.trans hL
    have hshrink : treeShrinkFactor < 1 := by norm_num [treeShrinkFactor]
    obtain ⟨n, hn⟩ :=
      exists_pow_lt_of_lt_one (div_pos hT hLpos) hshrink
    have hfuel : startLen * treeShrinkFactor ^ n < threshold := by
      calc startLen * treeShrinkFactor ^ n
          < startLen * (threshold / startLen) := mul_lt_mul_of_pos_left hn hLpos
        _ = threshold := by field_simp
    obtain ⟨segs, hsegs⟩ :=
      recursiveTreeDraw_isSome_of_fuel threshold n startLen startLen angle hfuel
    exact ⟨n, segs, hsegs⟩
  · intro fuel len base hlen
    rw [RecursiveTreeDraw.eq_def, if_pos hlen]

/-- Witness for recursiveTreeDraw_terminates at threshold four, starting
length 350 and angle thirty — the test scenario of the spec. -/
theorem recursiveTreeDraw_terminates_witness :
    (∃ fuel segs, RecursiveTreeDraw 4 fuel 350 350 30 = some segs) ∧
    (∀ (fuel : ℕ) (len base : ℚ), len < 4 →
      RecursiveTreeDraw 4 fuel len base 30 = some []) :=
  recursiveTreeDraw_terminates 4 350 30 (by norm_num) (by norm_num)

/-- C6: each iteration of the render loop emits its drawing commands in
exactly the specified order — bind the off-screen target, apply the 2D
camera transform, clear to sky blue, push the transform and translate to
root the trunk near the bottom center, invoke the tree generator with the
current length and angle, pop the transform, unbind the camera transform
then the off-screen target, clear the default framebuffer to white, bind
the bloom shader, draw the off-screen color buffer as a full-canvas quad
with the source rectangle height negated, unbind the shader, and present
the frame — before the loop continues with the remaining iterations. -/
theorem renderLoop_command_order (game : s_game) (keys : KeyState) (frameTime : ℚ)
    (rest : List (KeyState × ℚ)) :
    (runLoop game ((keys, frameTime) :: rest)).1 =
      [ Cmd.beginTextureMode
      , Cmd.beginMode2D (InputGame keys frameTime game).camera
      , Cmd.clearBackground SKYBLUE
      , Cmd.rlPushMatrix
      , Cmd.rlTranslatef game.window_size.x (game.window_size.y * 2) 0
      , Cmd.recursiveTreeDraw game.fractal_tree_start_length
          game.fractal_tree_start_length (InputGame keys frameTime game).fractal_tree_angle
      , Cmd.rlPopMatrix
      , Cmd.endMode2D
      , Cmd.endTextureMode
      , Cmd.beginDrawing
      , Cmd.clearBackground WHITE
      , Cmd.beginShaderMode
      , Cmd.drawTextureRec 0 0 game.window_size.x (-game.window_size.y) ⟨0, 0⟩ WHITE
      , Cmd.endShaderMode
      , Cmd.endDrawing ]
      ++ (runLoop (InputGame keys frameTime game) rest).1 := by
  simp [runLoop, frameBody, InputGame]

/-- The loop trace contains no loadShader, loadRenderTexture or
closeWindow command: resources are loaded before the loop and the window
is closed after it, never mid-loop. -/
theorem runLoop_no_resource_commands (inputs : List (KeyState × ℚ)) :
    ∀ (game : s_game),
      (runLoop game inputs).1.countP Cmd.isLoadShader = 0 ∧
      (runLoop game inputs).1.countP Cmd.isLoadRenderTexture = 0 ∧
      (runLoop game inputs).1.countP Cmd.isCloseWindow = 0 := by
  induction inputs with
  | nil => intro game; simp [runLoop]
  | cons p rest ih =>
    intro game
    obtain ⟨keys, frameTime⟩ := p
    have h := ih (InputGame keys frameTime game)
    simp only [runLoop, List.countP_append]
    refine ⟨?_, ?_, ?_⟩ <;>
      simp [frameBody, List.countP_cons, Cmd.isLoadShader,
        Cmd.isLoadRenderTexture, Cmd.isCloseWindow, h.1, h.2.1, h.2.2]

/-- C7: before the loop is entered, StartGame creates the window at the
configured size and title, sets the camera zoom to one half, sets the
branch angle to thirty degrees and the starting length to 350, caps the
frame rate at sixty, and creates the off-screen render target and loads
the bloom shader; the whole trace contains exactly one load of each
resource, and both loads sit in the four-command startup prefix. -/
theorem startGame_initializes_once (game : s_game) (inputs : List (KeyState × ℚ)) :
    (setupGame game).camera.zoom = 1 / 2 ∧
    (setupGame game).fractal_tree_angle = 30 ∧
    (setupGame game).fractal_tree_start_length = 350 ∧
    (StartGame game inputs).1.take 4 =
      [ Cmd.initWindow game.window_size.x game.window_size.y game.title
      , Cmd.setTargetFPS 60
      , Cmd.loadShader none ppShaderPathFormat 330
      , Cmd.loadRenderTexture game.window_size.x game.window_size.y ] ∧
    (StartGame game inputs).1.countP Cmd.isLoadShader = 1 ∧
    (StartGame game inputs).1.countP Cmd.isLoadRenderTexture = 1 := by
  have hloop := runLoop_no_resource_commands inputs (setupGame game)
  refine ⟨rfl, rfl, rfl, ?_, ?_, ?_⟩
  · simp [StartGame, RunGame, setupGame]
  · simp [StartGame, RunGame, List.countP_append, List.countP_cons,
      Cmd.isLoadShader, hloop.1]
  · simp [StartGame, RunGame, List.countP_append, List.countP_cons,
      Cmd.isLoadRenderTexture, hloop.2.1]

/-- C8: for every run, the trace of RunGame ends with the closeWindow
teardown — which destroys the window and its GL context, releasing the
context-owned GPU resources, the off-screen render target and the bloom
shader — and closeWindow occurs nowhere earlier: the whole loop precedes
it, resources are never released mid-loop, and no command follows it, so
there is no transition back from Closed to Running. -/
theorem runGame_one_shot_close (game : s_game) (inputs : List (KeyState × ℚ)) :
    ∃ pre, (RunGame game inputs).1 = pre ++ [Cmd.closeWindow] ∧
      pre.countP Cmd.isCloseWindow = 0 ∧
      pre = [ Cmd.loadShader none ppShaderPathFormat 330
            , Cmd.loadRenderTexture game.window_size.x game.window_size.y ]
            ++ (runLoop game inputs).1 := by
  have hloop := runLoop_no_resource_commands inputs game
  refine ⟨[ Cmd.loadShader none ppShaderPathFormat 330
          , Cmd.loadRenderTexture game.window_size.x game.window_size.y ]
          ++ (runLoop game inputs).1, ?_, ?_, rfl⟩
  · simp [RunGame]
  · simp [List.countP_append, List.countP_cons, Cmd.isCloseWindow, hloop.2.2]

/-- C9: the shader asset is loaded exactly once, at startup: the trace of
a whole run starts with window creation, the frame-rate cap, and then the
single loadShader command, whose vertex shader argument is the NULL
default, whose fragment path format string is the fixed asset path
concatenated with postprocessing.glsl, and whose formatted GLSL version is
330; no later command loads a shader. -/
theorem shader_loaded_once_at_startup (game : s_game) (inputs : List (KeyState × ℚ)) :
    ∃ afterLoad,
      (StartGame game inputs).1 =
        [ Cmd.initWindow game.window_size.x game.window_size.y game.title
        , Cmd.setTargetFPS 60
        , Cmd.loadShader none (ASSETS_PATH ++ "postprocessing.glsl") 330 ] ++ afterLoad ∧
      afterLoad.countP Cmd.isLoadShader = 0 := by
  have hloop := runLoop_no_resource_commands inputs (setupGame game)
  refine ⟨[ Cmd.loadRenderTexture game.window_size.x game.window_size.y ]
          ++ (runLoop (setupGame game) inputs).1 ++ [Cmd.closeWindow], ?_, ?_⟩
  · simp [StartGame, RunGame, setupGame, ppShaderPathFormat]
  · simp [List.countP_append, List.countP_cons, Cmd.isLoadShader, hloop.1]

/-- C10: EndGame has an empty body — it emits no commands and returns
every field of the game state unchanged. -/
theorem endGame_is_noop (game : s_game) :
    (EndGame game).1 = [] ∧
    (EndGame game).2.window_size = game.window_size ∧
    (EndGame game).2.title = game.title ∧
    (EndGame game).2.camera = game.camera ∧
    (EndGame game).2.fractal_tree_angle = game.fractal_tree_angle ∧
    (EndGame game).2.fractal_tree_start_length = game.fractal_tree_start_length :=
  ⟨rfl, rfl, rfl, rfl, rfl, rfl⟩

end Game
